import Mathlib

/-!
Shallow embedding of `src/core/settings.py` of the fastapi_cookiecutter
repository: the configuration store (`Settings`), the credential resolver
(`get_google_credentials`), and the lazy BigQuery client lifecycle
(`get_bigquery_client`, `get_bigquery_client_instance`,
`ensure_dataset_exists`).

External effects are made explicit:
  * the file system is the optional parsed content of `<project root>/key.json`;
  * each call into the Google SDK (loading a service-account file,
    constructing a client, fetching a dataset, creating a dataset) is an
    external operation whose success or failure is an oracle bit in `ExtEnv`;
  * the module-level mutable globals (`_bigquery_client`) and the stdout log
    are a `World` record threaded through the stateful functions;
  * Python exceptions are `Except BQError`.
-/

namespace SettingsPy

/-- Python's `str.lower()`: character-wise lowercasing (here used only to
compare environment names such as "local" and "development", which are
ASCII). -/
def pyLower (s : String) : String := ⟨s.data.map Char.toLower⟩

/-- Parsed content of a file that `json.load` is applied to: either the parse
fails (malformed JSON) or it yields an object whose `project_id` key is
present with a string value, or absent. -/
inductive KeyFile
  | malformed
  | wellFormed (projectId : Option String)
deriving DecidableEq

/-- The exceptions the embedded code can raise. -/
inductive BQError
  | fileNotFound (msg : String)
  | jsonParse
  | saLoad
  | clientConstruct
  | getDataset
  | createDataset
deriving DecidableEq

/-- The string rendering of an exception, used in the warning printed by
`ensure_dataset_exists`. -/
def BQError.message : BQError → String
  | .fileNotFound m => m
  | .jsonParse => "JSONDecodeError"
  | .saLoad => "service account load failed"
  | .clientConstruct => "client construction failed"
  | .getDataset => "get_dataset failed"
  | .createDataset => "create_dataset failed"

/-- The typed settings object of the `Settings(BaseSettings)` class
(`PROJECT_DIR` is kept abstract as a string path). -/
structure Settings where
  API_V1 : String
  PROJECT_DIR : String
  BACKEND_CORS_ORIGINS : List String
  ENVIRONMENT : String
  LOCAL_API_KEY : String
  GOOGLE_CLOUD_PROJECT : String
  BIGQUERY_DATASET : String
  BIGQUERY_LOCATION : String
  PROJECT_ID : String
deriving DecidableEq

/-- The compiled-in field defaults of the `Settings` class. -/
def Settings.defaults : Settings where
  API_V1 := "/api/v1"
  PROJECT_DIR := "."
  BACKEND_CORS_ORIGINS := ["*"]
  ENVIRONMENT := "development"
  LOCAL_API_KEY := "default_api_key"
  GOOGLE_CLOUD_PROJECT := "celestial-gecko-449316-d2"
  BIGQUERY_DATASET := "template_dataset"
  BIGQUERY_LOCATION := "US"
  PROJECT_ID := "celestial-gecko-449316-d2"

/-- Environment-variable overrides, one optional value per settings field. -/
structure EnvVarOverrides where
  API_V1 : Option String
  BACKEND_CORS_ORIGINS : Option (List String)
  ENVIRONMENT : Option String
  LOCAL_API_KEY : Option String
  GOOGLE_CLOUD_PROJECT : Option String
  BIGQUERY_DATASET : Option String
  BIGQUERY_LOCATION : Option String
  PROJECT_ID : Option String
deriving DecidableEq

/-- Overrides that set no field at all. -/
def EnvVarOverrides.none : EnvVarOverrides :=
  ⟨Option.none, Option.none, Option.none, Option.none,
   Option.none, Option.none, Option.none, Option.none⟩

/-- Modelled from the spec: the external settings-parsing collaborator
(pydantic `BaseSettings`, not part of this repository) populates fields from
compiled-in defaults and then overrides any configuration field by matching
field name from the optional env file and environment variables; unrecognized
keys are ignored. The result is the value the `Settings.__init__` body sees
right after `super().__init__(**kwargs)` returns. -/
def applyEnvOverrides (s : Settings) (o : EnvVarOverrides) : Settings :=
  { s with
    API_V1 := o.API_V1.getD s.API_V1
    BACKEND_CORS_ORIGINS := o.BACKEND_CORS_ORIGINS.getD s.BACKEND_CORS_ORIGINS
    ENVIRONMENT := o.ENVIRONMENT.getD s.ENVIRONMENT
    LOCAL_API_KEY := o.LOCAL_API_KEY.getD s.LOCAL_API_KEY
    GOOGLE_CLOUD_PROJECT := o.GOOGLE_CLOUD_PROJECT.getD s.GOOGLE_CLOUD_PROJECT
    BIGQUERY_DATASET := o.BIGQUERY_DATASET.getD s.BIGQUERY_DATASET
    BIGQUERY_LOCATION := o.BIGQUERY_LOCATION.getD s.BIGQUERY_LOCATION
    PROJECT_ID := o.PROJECT_ID.getD s.PROJECT_ID }

/-- `key_path = self.PROJECT_DIR / "key.json"`. -/
def keyPath (s : Settings) : String := s.PROJECT_DIR ++ "/key.json"

/-- `json.load(key_file)`: raises on malformed JSON, otherwise yields the
optional `project_id` value of the parsed object. -/
def json_load : KeyFile → Except BQError (Option String)
  | .malformed => .error .jsonParse
  | .wellFormed pid => .ok pid

/-- The body of `Settings.__init__` after `super().__init__`: `base` is the
already-merged settings value, `fs` is the content of the file at
`<PROJECT_DIR>/key.json` (`none` when `key_path.exists()` is false).
Only in a (case-insensitively) local environment, and only when the file
exists, is it parsed and the two project-id fields overwritten by
`key_data.get("project_id", <previous value>)`. -/
def Settings.init (base : Settings) (fs : Option KeyFile) :
    Except BQError Settings :=
  if pyLower base.ENVIRONMENT = "local" then
    match fs with
    | none => .ok base
    | some kf =>
      match json_load kf with
      | .error e => .error e
      | .ok keyData =>
        .ok { base with
              GOOGLE_CLOUD_PROJECT := keyData.getD base.GOOGLE_CLOUD_PROJECT
              PROJECT_ID := keyData.getD base.PROJECT_ID }
  else .ok base

/-- An explicit service-account credential object, remembering the file it
was loaded from. -/
structure SACred where
  fromFile : String
deriving DecidableEq

/-- The behavior of the external collaborators during one run: the file
system state at `<project root>/key.json` and whether each Google SDK call
succeeds when reached. -/
structure ExtEnv where
  keyFile : Option KeyFile
  saLoadOk : Bool
  clientOk : Bool
  getDatasetOk : Bool
  createDatasetOk : Bool
deriving DecidableEq

/-- `service_account.Credentials.from_service_account_file(path)`: an
external SDK call that either yields a credential object or raises. -/
def from_service_account_file (path : String) (env : ExtEnv) :
    Except BQError SACred :=
  if env.saLoadOk then .ok ⟨path⟩ else .error .saLoad

/-- `get_google_credentials()`: in a (case-insensitively) local environment,
load `key.json` as a service-account credential if it exists and raise
`FileNotFoundError` otherwise; in any other environment return `None`
(the ambient-credentials sentinel) without touching the file system. -/
def get_google_credentials (s : Settings) (env : ExtEnv) :
    Except BQError (Option SACred) :=
  if pyLower s.ENVIRONMENT = "local" then
    match env.keyFile with
    | some _ => (from_service_account_file (keyPath s) env).map some
    | none => .error (.fileNotFound "key.json not found for local environment")
  else
    .ok none

/-- An opaque BigQuery client handle: a fresh allocation id plus the
parameters it was constructed with. -/
structure Client where
  id : Nat
  project : String
  location : String
  credentials : Option SACred
deriving DecidableEq

/-- `bigquery.Client(...)`: an external SDK constructor that either yields a
fresh client object (with allocation id `nextId`) or raises. -/
def bigquery_Client (nextId : Nat) (project loc : String)
    (credentials : Option SACred) (env : ExtEnv) : Except BQError Client :=
  if env.clientOk then .ok ⟨nextId, project, loc, credentials⟩
  else .error .clientConstruct

/-- `get_bigquery_client()`: resolve credentials, then construct a client
either with explicit credentials or with ambient credentials. Any failure
propagates. -/
def get_bigquery_client (s : Settings) (env : ExtEnv) (nextId : Nat) :
    Except BQError Client :=
  match get_google_credentials s env with
  | .error e => .error e
  | .ok (some c) =>
      bigquery_Client nextId s.GOOGLE_CLOUD_PROJECT s.BIGQUERY_LOCATION
        (some c) env
  | .ok none =>
      bigquery_Client nextId s.GOOGLE_CLOUD_PROJECT s.BIGQUERY_LOCATION
        none env

/-- The module-level mutable state: the `_bigquery_client` global, the next
fresh allocation id, and the lines printed so far. -/
structure World where
  bigquery_client : Option Client
  nextId : Nat
  log : List String
deriving DecidableEq

/-- The state at module import time: `_bigquery_client = None`. -/
def World.fresh : World := ⟨none, 0, []⟩

/-- `get_bigquery_client_instance()`: return the memoized client if the
global is set, otherwise construct one and memoize it; a construction
failure propagates and leaves the global untouched. -/
def get_bigquery_client_instance (s : Settings) (env : ExtEnv) (w : World) :
    Except BQError Client × World :=
  match w.bigquery_client with
  | some c => (.ok c, w)
  | none =>
    match get_bigquery_client s env w.nextId with
    | .ok c =>
        (.ok c, { w with bigquery_client := some c, nextId := w.nextId + 1 })
    | .error e => (.error e, w)

/-- One call issued to the remote warehouse service by
`ensure_dataset_exists`. -/
inductive BQCall
  | getDataset (datasetId : String)
  | createDataset (datasetId : String) (loc : String)
      (descr : String) (timeout : Nat)
deriving DecidableEq

/-- The warning line `ensure_dataset_exists` prints when the outer `except`
catches an exception `e`. -/
def warningMsg (e : BQError) : String :=
  "Warning: Could not initialize BigQuery: " ++ e.message

/-- The fully qualified dataset id
`f"{settings.GOOGLE_CLOUD_PROJECT}.{settings.BIGQUERY_DATASET}"`. -/
def datasetId (s : Settings) : String :=
  s.GOOGLE_CLOUD_PROJECT ++ "." ++ s.BIGQUERY_DATASET

/-- `ensure_dataset_exists()`: obtain the memoized client; fetch the dataset
by id; on any fetch error create it with the configured location, the fixed
description and a 30-second timeout. The outer `try` catches every exception
from this whole sequence (including client construction and creation) and
prints a warning instead of re-raising. Returns the updated world and the
list of remote dataset calls issued. -/
def ensure_dataset_exists (s : Settings) (env : ExtEnv) (w : World) :
    Except BQError (World × List BQCall) :=
  match get_bigquery_client_instance s env w with
  | (.error e, w₁) => .ok ({ w₁ with log := w₁.log ++ [warningMsg e] }, [])
  | (.ok _client, w₁) =>
    if env.getDatasetOk then
      (.ok (w₁, [.getDataset (datasetId s)]))
    else
      let calls := [BQCall.getDataset (datasetId s),
        BQCall.createDataset (datasetId s) s.BIGQUERY_LOCATION
          "Template microservice dataset" 30]
      if env.createDatasetOk then
        .ok ({ w₁ with
               log := w₁.log ++ ["Created dataset " ++ datasetId s] }, calls)
      else
        .ok ({ w₁ with log := w₁.log ++ [warningMsg .createDataset] }, calls)

/-! Concrete instances used by the witnesses. -/

/-- The default settings with the environment name set to "local". -/
def settingsLocal : Settings :=
  { Settings.defaults with ENVIRONMENT := "local" }

/-- An external environment with no `key.json` present and every SDK call
succeeding. -/
def envAllOk : ExtEnv := ⟨none, true, true, true, true⟩

/-- An external environment in which `bigquery.Client(...)` raises. -/
def envClientFails : ExtEnv := ⟨none, true, false, true, true⟩

/-- An external environment in which the dataset fetch and the dataset
creation both raise. -/
def envDatasetFails : ExtEnv := ⟨none, true, true, false, false⟩

/-- The client constructed on the first call under the default settings. -/
def clientDefault : Client :=
  ⟨0, "celestial-gecko-449316-d2", "US", none⟩

/-- The world after that first successful construction. -/
def worldAfter : World := ⟨some clientDefault, 1, []⟩

/-! Theorems, one per claim of the specification. -/

/-- Claim C5: for every environment name whose case-insensitive form is not
"local", `Settings.__init__` returns the merged value unchanged whatever the
file system holds (so it never reads the credential file), and
`get_google_credentials` returns the ambient-credentials sentinel `None`
whatever the file system and SDK behavior are. -/
theorem nonlocal_env_ignores_key_file (base : Settings) (fs : Option KeyFile)
    (env : ExtEnv) (h : pyLower base.ENVIRONMENT ≠ "local") :
    Settings.init base fs = .ok base ∧
    get_google_credentials base env = .ok none := by
  constructor
  · unfold Settings.init
    simp [h]
  · unfold get_google_credentials
    simp [h]

/-- Witness for C5 at the default settings (environment "development"). -/
theorem nonlocal_env_ignores_key_file_witness :
    Settings.init Settings.defaults (some KeyFile.malformed) =
      .ok Settings.defaults ∧
    get_google_credentials Settings.defaults envAllOk = .ok none :=
  nonlocal_env_ignores_key_file Settings.defaults (some KeyFile.malformed)
    envAllOk (by decide)

/-- Claim C6: when the environment name is case-insensitively "local" and no
file exists at `<project root>/key.json`, `get_google_credentials` raises
`FileNotFoundError("key.json not found for local environment")`; no fallback
to ambient credentials happens. -/
theorem local_missing_key_file_raises (s : Settings) (env : ExtEnv)
    (henv : pyLower s.ENVIRONMENT = "local") (hfs : env.keyFile = none) :
    get_google_credentials s env =
      .error (.fileNotFound "key.json not found for local environment") := by
  unfold get_google_credentials
  rw [henv, hfs]
  simp

/-- Witness for C6 at the local settings with an empty file system. -/
theorem local_missing_key_file_raises_witness :
    get_google_credentials settingsLocal envAllOk =
      .error (.fileNotFound "key.json not found for local environment") :=
  local_missing_key_file_raises settingsLocal envAllOk (by decide) rfl

/-- Claim C7: in a local environment with a present well-formed `key.json`,
if its `project_id` field is `"X"` then both `GOOGLE_CLOUD_PROJECT` and
`PROJECT_ID` are overwritten with `"X"`; if the `project_id` key is absent,
construction succeeds with both fields keeping their prior values. -/
theorem local_key_file_overrides_project_ids (base : Settings)
    (pid : Option String) (henv : pyLower base.ENVIRONMENT = "local") :
    (∀ x, pid = some x →
      Settings.init base (some (.wellFormed pid)) =
        .ok { base with GOOGLE_CLOUD_PROJECT := x, PROJECT_ID := x }) ∧
    (pid = none →
      Settings.init base (some (.wellFormed pid)) = .ok base) := by
  unfold Settings.init
  rw [henv]
  constructor
  · intro x hx
    subst hx
    simp [json_load]
  · intro hx
    subst hx
    simp [json_load]

/-- Witness for C7 at the local settings with `project_id = "X"`. -/
theorem local_key_file_overrides_project_ids_witness :
    Settings.init settingsLocal (some (.wellFormed (some "X"))) =
      .ok { settingsLocal with
            GOOGLE_CLOUD_PROJECT := "X", PROJECT_ID := "X" } :=
  (local_key_file_overrides_project_ids settingsLocal (some "X")
    (by decide)).1 "X" rfl

/-- Claim C8: in a local environment, a present `key.json` whose content is
malformed JSON makes `Settings.__init__` fail with the propagated parse
error; no settings value is produced. -/
theorem local_malformed_key_file_fails_init (base : Settings)
    (henv : pyLower base.ENVIRONMENT = "local") :
    Settings.init base (some .malformed) = .error .jsonParse := by
  unfold Settings.init
  rw [henv]
  simp [json_load]

/-- Witness for C8 at the local settings. -/
theorem local_malformed_key_file_fails_init_witness :
    Settings.init settingsLocal (some .malformed) = .error .jsonParse :=
  local_malformed_key_file_fails_init settingsLocal (by decide)

/-- Claim C9: in a local environment with no `key.json` present,
`Settings.__init__` completes without error and every field, in particular
the two project-id fields, keeps its merged (default or overridden) value. -/
theorem local_missing_key_file_init_ok (base : Settings)
    (henv : pyLower base.ENVIRONMENT = "local") :
    Settings.init base none = .ok base := by
  unfold Settings.init
  rw [henv]
  simp

/-- Witness for C9 at the local settings. -/
theorem local_missing_key_file_init_ok_witness :
    Settings.init settingsLocal none = .ok settingsLocal :=
  local_missing_key_file_init_ok settingsLocal (by decide)

/-- Counterexample to claim C3 as stated: environment variables may override
`PROJECT_ID` alone (pydantic reads each declared field independently), and in
a non-local environment `Settings.__init__` never re-synchronizes the pair,
so construction completes with `GOOGLE_CLOUD_PROJECT ≠ PROJECT_ID`. -/
theorem project_id_fields_can_diverge :
    (Settings.init
        (applyEnvOverrides Settings.defaults
          { EnvVarOverrides.none with PROJECT_ID := some "env-project" })
        none).map
      (fun s => s.GOOGLE_CLOUD_PROJECT == s.PROJECT_ID) = .ok false := by
  rfl

/-- Claim C3 (amended): if the merged pre-init values of
`GOOGLE_CLOUD_PROJECT` and `PROJECT_ID` are equal — as they are under the
compiled-in defaults, where both are "celestial-gecko-449316-d2" — then
`Settings.__init__` preserves the equality on every path (local or not,
file present or absent, `project_id` key present or absent); the settings
object is never mutated afterwards. Overrides that set only one of the two
fields are what break the claim as originally stated. -/
theorem project_id_equality_preserved_by_init (base : Settings)
    (fs : Option KeyFile) (s : Settings)
    (hbase : base.GOOGLE_CLOUD_PROJECT = base.PROJECT_ID)
    (h : Settings.init base fs = .ok s) :
    s.GOOGLE_CLOUD_PROJECT = s.PROJECT_ID := by
  unfold Settings.init at h
  by_cases henv : pyLower base.ENVIRONMENT = "local"
  · rw [if_pos henv] at h
    match fs with
    | none =>
      simp only [Except.ok.injEq] at h
      subst h
      exact hbase
    | some kf =>
      match kf with
      | .malformed => simp [json_load] at h
      | .wellFormed pid =>
        simp only [json_load, Except.ok.injEq] at h
        subst h
        cases pid with
        | none => exact hbase
        | some x => rfl
  · rw [if_neg henv] at h
    simp only [Except.ok.injEq] at h
    subst h
    exact hbase

/-- Witness for the amended C3: a local construction that rewrites both
fields from the key file preserves the equality. -/
theorem project_id_equality_preserved_by_init_witness :
    ({ settingsLocal with
       GOOGLE_CLOUD_PROJECT := "X", PROJECT_ID := "X" } :
      Settings).GOOGLE_CLOUD_PROJECT =
    ({ settingsLocal with
       GOOGLE_CLOUD_PROJECT := "X", PROJECT_ID := "X" } :
      Settings).PROJECT_ID :=
  project_id_equality_preserved_by_init settingsLocal
    (some (.wellFormed (some "X"))) _ rfl rfl

/-- Claim C2: once a call to `get_bigquery_client_instance` has succeeded,
the returned world has the client memoized, at most one construction happened
(the allocation counter grew by at most one), and every later call — under
any settings and any external environment — returns the identical memoized
object with the world unchanged, constructing nothing new. -/
theorem client_instance_memoized (s : Settings) (env : ExtEnv) (w : World)
    (c : Client) (w' : World)
    (h : get_bigquery_client_instance s env w = (.ok c, w')) :
    w'.bigquery_client = some c ∧ w'.nextId ≤ w.nextId + 1 ∧
    ∀ s' env', get_bigquery_client_instance s' env' w' = (.ok c, w') := by
  have hmem : w'.bigquery_client = some c ∧ w'.nextId ≤ w.nextId + 1 := by
    unfold get_bigquery_client_instance at h
    split at h
    · rename_i c0 hw
      simp only [Prod.mk.injEq, Except.ok.injEq] at h
      obtain ⟨rfl, rfl⟩ := h
      exact ⟨hw, Nat.le_succ _⟩
    · rename_i hw
      split at h
      · rename_i c1 hg
        simp only [Prod.mk.injEq, Except.ok.injEq] at h
        obtain ⟨rfl, rfl⟩ := h
        exact ⟨rfl, Nat.le_refl _⟩
      · rename_i e hg
        simp at h
  refine ⟨hmem.1, hmem.2, ?_⟩
  intro s' env'
  unfold get_bigquery_client_instance
  rw [hmem.1]

/-- Witness for C2: the first call under the default settings memoizes the
constructed client after a single allocation. -/
theorem client_instance_memoized_witness :
    worldAfter.bigquery_client = some clientDefault ∧
    worldAfter.nextId ≤ World.fresh.nextId + 1 :=
  ⟨(client_instance_memoized Settings.defaults envAllOk World.fresh
      clientDefault worldAfter rfl).1,
   (client_instance_memoized Settings.defaults envAllOk World.fresh
      clientDefault worldAfter rfl).2.1⟩

/-- Claim C10: when `get_bigquery_client_instance` propagates a construction
failure, the world is unchanged — in particular the memoization slot was and
stays `None`, no failed client is stored — and a subsequent call behaves
exactly like a fresh first call (it re-attempts construction). -/
theorem failed_client_not_memoized (s : Settings) (env : ExtEnv) (w : World)
    (e : BQError) (w' : World)
    (h : get_bigquery_client_instance s env w = (.error e, w')) :
    w' = w ∧ w.bigquery_client = none ∧
    ∀ s' env', get_bigquery_client_instance s' env' w' =
      get_bigquery_client_instance s' env' w := by
  unfold get_bigquery_client_instance at h
  split at h
  · rename_i c0 hw
    simp at h
  · rename_i hw
    split at h
    · rename_i c1 hg
      simp at h
    · rename_i e1 hg
      simp only [Prod.mk.injEq, Except.error.injEq] at h
      obtain ⟨rfl, rfl⟩ := h
      exact ⟨rfl, hw, fun s' env' => rfl⟩

/-- Witness for C10: after a failed first construction the slot is still
unset. -/
theorem failed_client_not_memoized_witness :
    World.fresh.bigquery_client = none :=
  (failed_client_not_memoized Settings.defaults envClientFails World.fresh
    .clientConstruct World.fresh rfl).2.1

/-- Claim C1: `ensure_dataset_exists` always returns normally, whatever the
failures of client construction, dataset fetch or dataset creation; when the
client path fails it returns after appending exactly the warning line for the
caught error, and when fetch and creation both fail it returns after
appending the warning line for the creation error. -/
theorem ensure_dataset_exists_never_raises (s : Settings) (env : ExtEnv)
    (w : World) :
    (∃ out, ensure_dataset_exists s env w = .ok out) ∧
    (∀ e w₁, get_bigquery_client_instance s env w = (.error e, w₁) →
      ensure_dataset_exists s env w =
        .ok ({ w₁ with log := w₁.log ++ [warningMsg e] }, [])) ∧
    (∀ c w₁, get_bigquery_client_instance s env w = (.ok c, w₁) →
      env.getDatasetOk = false → env.createDatasetOk = false →
      ensure_dataset_exists s env w =
        .ok ({ w₁ with log := w₁.log ++ [warningMsg .createDataset] },
          [.getDataset (datasetId s),
           .createDataset (datasetId s) s.BIGQUERY_LOCATION
             "Template microservice dataset" 30])) := by
  refine ⟨?_, ?_, ?_⟩
  · unfold ensure_dataset_exists
    rcases hcall : get_bigquery_client_instance s env w with ⟨r, w₁⟩
    cases r with
    | error e => exact ⟨_, rfl⟩
    | ok c =>
      cases hg : env.getDatasetOk with
      | true => simp [hg]
      | false =>
        cases hc : env.createDatasetOk with
        | true => simp [hg, hc]
        | false => simp [hg, hc]
  · intro e w₁ hcall
    unfold ensure_dataset_exists
    rw [hcall]
  · intro c w₁ hcall hg hc
    unfold ensure_dataset_exists
    rw [hcall]
    simp [hg, hc]

/-- Witness for C1: with a failing client construction, the call returns
normally with exactly the warning line appended to the log. -/
theorem ensure_dataset_exists_never_raises_witness :
    ensure_dataset_exists Settings.defaults envClientFails World.fresh =
      .ok ({ World.fresh with
             log := World.fresh.log ++ [warningMsg .clientConstruct] }, []) :=
  (ensure_dataset_exists_never_raises Settings.defaults envClientFails
    World.fresh).2.1 .clientConstruct World.fresh rfl

/-- Claim C4: when the client is obtained inside `ensure_dataset_exists`, a
successful fetch issues the single `get_dataset` call and no creation call;
a failed fetch issues exactly one `create_dataset` call, parameterized by the
configured `BIGQUERY_LOCATION`, the fixed description and the 30-unit
timeout. -/
theorem ensure_dataset_fetch_or_create (s : Settings) (env : ExtEnv)
    (w : World) (c : Client) (w₁ : World)
    (h : get_bigquery_client_instance s env w = (.ok c, w₁)) :
    (env.getDatasetOk = true →
      ensure_dataset_exists s env w =
        .ok (w₁, [.getDataset (datasetId s)])) ∧
    (env.getDatasetOk = false →
      ∃ w₂, ensure_dataset_exists s env w = .ok (w₂,
        [.getDataset (datasetId s),
         .createDataset (datasetId s) s.BIGQUERY_LOCATION
           "Template microservice dataset" 30])) := by
  unfold ensure_dataset_exists
  rw [h]
  constructor
  · intro hg
    simp [hg]
  · intro hg
    cases hc : env.createDatasetOk with
    | true =>
      exact ⟨{ w₁ with log := w₁.log ++ ["Created dataset " ++ datasetId s] },
        by simp [hg, hc]⟩
    | false =>
      exact ⟨{ w₁ with log := w₁.log ++ [warningMsg .createDataset] },
        by simp [hg, hc]⟩

/-- Witness for C4: under the default settings with a succeeding fetch, the
trace is the single `get_dataset` call. -/
theorem ensure_dataset_fetch_or_create_witness :
    ensure_dataset_exists Settings.defaults envAllOk World.fresh =
      .ok (worldAfter, [.getDataset (datasetId Settings.defaults)]) :=
  (ensure_dataset_fetch_or_create Settings.defaults envAllOk World.fresh
    clientDefault worldAfter rfl).1 rfl

end SettingsPy
